import Mathlib

/-!
Verification development for the pdf_analyst repository.

Part 1 embeds the WatsonX message adapter
(`src/ref/watsonx_integration.py`): message conversion
(`WatsonXAgentModel._convert_messages`), response decoding
(`_process_chat_response`, `_process_generate_response`, `_extract_usage`,
`request`) and the streamed-response consumer (`WatsonXStreamedResponse`).

Part 2 embeds the conversational state machine
(`src/src/pdf_agent/chat.py`): the `chatbot` node, the `human_assistance`
tool with interrupt/resume, and the compiled graph's transition structure.

Python dictionaries with optional keys are embedded as structures of
`Option` fields; `dict.get(k, d)` becomes `Option.getD`; code that can
raise is embedded in `Except`.
-/

namespace PdfAnalyst

/-! ## Part 1: the WatsonX message adapter -/

/-- A local (pydantic-ai style) chat message: a role tag, text content and
an optional `name` attribute (present on some message variants only). -/
structure Msg where
  role : String
  content : String
  name : Option String
  deriving Repr, DecidableEq

/-- A wire-format `\x7brole, content\x7d` record sent to the WatsonX
endpoint, with the optional `name` key carried over when present. -/
structure WireMsg where
  role : String
  content : String
  name : Option String
  deriving Repr, DecidableEq

/-- The `role_mapping` dictionary lookup of `_convert_messages`:
`role_mapping.get(msg.role, msg.role)` with the dictionary
`system→system, user→user, assistant→assistant, tool→function`. -/
def role_mapping (r : String) : String :=
  if r = "system" then "system"
  else if r = "user" then "user"
  else if r = "assistant" then "assistant"
  else if r = "tool" then "function"
  else r

/-- Conversion of one message inside `_convert_messages`. -/
def convertMessage (m : Msg) : WireMsg :=
  { role := role_mapping m.role, content := m.content, name := m.name }

/-- `WatsonXAgentModel._convert_messages`: the list comprehension mapping
each local message to its wire record. -/
def convertMessages (ms : List Msg) : List WireMsg :=
  ms.map convertMessage

/-- A function/tool-call descriptor on the wire (`function_call` object). -/
structure FunctionCall where
  name : String
  arguments : String
  deriving Repr, DecidableEq

/-- The `message` object of a chat choice: `content` and `function_call`
are both optional keys (`message.get(...)`). -/
structure WireMessage where
  content : Option String
  function_call : Option FunctionCall
  deriving Repr, DecidableEq

/-- One element of the `choices` array of a chat response. -/
structure Choice where
  message : WireMessage
  deriving Repr, DecidableEq

/-- The optional `usage` object of a wire response; each token field is
itself an optional key. -/
structure UsageData where
  prompt_tok : Option Nat
  completion_tok : Option Nat
  total_tok : Option Nat
  deriving Repr, DecidableEq

/-- One element of the `results` array of a generate response. -/
structure GenResult where
  generated_text : String
  deriving Repr, DecidableEq

/-- A wire response from the endpoint.  `choices` (chat), `results`
(generate) and `usage` are all keys that may be absent, which the code
distinguishes from present: `response['choices']` raises when absent while
`response.get('usage', \x7b\x7d)` degrades. -/
structure WireResponse where
  choices : Option (List Choice)
  results : Option (List GenResult)
  usage : Option UsageData
  deriving Repr, DecidableEq

/-- Token-usage counters (`Usage(prompt_tokens=..., ...)`). -/
structure Usage where
  prompt_tokens : Nat
  completion_tokens : Nat
  total_tokens : Nat
  deriving Repr, DecidableEq

/-- Finish reason tag of a decoded model response. -/
inductive FinishReason
  | stop
  | function_call
  deriving Repr, DecidableEq

/-- A decoded local model response (`ModelResponse(...)`); stream events
carry no finish reason, whole responses do. -/
structure ModelResponse where
  content : String
  role : String
  function_call : Option FunctionCall
  finish_reason : Option FinishReason
  deriving Repr, DecidableEq

/-- `WatsonXAgentModel._process_chat_response`: reads
`response['choices'][0]['message']` — a `KeyError`/`IndexError` when
`choices` is absent or empty — then `message.get('content', '')` and
`message.get('function_call')`. -/
def processChatResponse (r : WireResponse) : Except String ModelResponse :=
  match r.choices with
  | none => .error "KeyError: choices"
  | some [] => .error "IndexError: choices"
  | some (c :: _) =>
    let content := c.message.content.getD ""
    match c.message.function_call with
    | some fc =>
      .ok { content := content, role := "assistant",
            function_call := some fc, finish_reason := some .function_call }
    | none =>
      .ok { content := content, role := "assistant",
            function_call := none, finish_reason := some .stop }

/-- `WatsonXAgentModel._process_generate_response`: reads
`response['results'][0]['generated_text']`. -/
def processGenerateResponse (r : WireResponse) : Except String ModelResponse :=
  match r.results with
  | none => .error "KeyError: results"
  | some [] => .error "IndexError: results"
  | some (g :: _) =>
    .ok { content := g.generated_text, role := "assistant",
          function_call := none, finish_reason := some .stop }

/-- `WatsonXAgentModel._extract_usage`: `response.get('usage', \x7b\x7d)`
then `usage_data.get(field, 0)` for each of the three token fields. -/
def extractUsage (r : WireResponse) : Usage :=
  let usage_data := r.usage.getD { prompt_tok := none, completion_tok := none, total_tok := none }
  { prompt_tokens := usage_data.prompt_tok.getD 0,
    completion_tokens := usage_data.completion_tok.getD 0,
    total_tokens := usage_data.total_tok.getD 0 }

/-- Errors surfaced by `request`: the `except Exception` clause re-raises
every failure as `RuntimeError(f"WatsonX request failed: \x7bstr(e)\x7d")`. -/
inductive RequestError
  | runtimeError (message : String)
  deriving Repr, DecidableEq

/-- `WatsonXAgentModel.request`: converts the transcript, picks the chat
endpoint when `len(watsonx_messages) > 1 or not self.allow_text_result`
and the generate endpoint otherwise, decodes the response and extracts
usage; any exception inside the `try` block is re-raised as a
`RuntimeError`.  The two remote endpoints are passed in as functions from
the request data to the wire response they return. -/
def request (allow_text_result : Bool) (ms : List Msg)
    (chatEndpoint : List WireMsg → WireResponse)
    (genEndpoint : String → WireResponse) :
    Except RequestError (ModelResponse × Usage) :=
  let watsonx_messages := convertMessages ms
  if watsonx_messages.length > 1 ∨ allow_text_result = false then
    let response := chatEndpoint watsonx_messages
    match processChatResponse response with
    | .error e => .error (.runtimeError ("WatsonX request failed: " ++ e))
    | .ok mr => .ok (mr, extractUsage response)
  else
    match watsonx_messages with
    | [] => .error (.runtimeError "WatsonX request failed: IndexError: messages")
    | w :: _ =>
      let response := genEndpoint w.content
      match processGenerateResponse response with
      | .error e => .error (.runtimeError ("WatsonX request failed: " ++ e))
      | .ok mr => .ok (mr, extractUsage response)

/-! ### The streamed response (`WatsonXStreamedResponse`) -/

/-- The `delta` object of a streamed chunk: optional partial `content`
and optional partial `function_call`. -/
structure Delta where
  content : Option String
  function_call : Option FunctionCall
  deriving Repr, DecidableEq

/-- One streamed chunk.  The wire chunk may also carry a usage object
(spec §6: delta chunks carry an optional usage-counters object); the
source reads only `chunk['choices'][0]['delta']` and never the usage. -/
structure Chunk where
  delta : Delta
  usage : Option UsageData
  deriving Repr, DecidableEq

/-- A `ModelResponseStreamEvent` yielded during streaming. -/
structure StreamEvent where
  content : String
  role : String
  function_call : Option FunctionCall
  deriving Repr, DecidableEq

/-- The mutable fields of `WatsonXStreamedResponse`. -/
structure StreamState where
  collected_content : List String
  function_calls : List FunctionCall
  usage : Usage
  deriving Repr, DecidableEq

/-- `WatsonXStreamedResponse.__init__`: empty accumulators and a zero
usage counter. -/
def initStreamState : StreamState :=
  { collected_content := [], function_calls := [],
    usage := { prompt_tokens := 0, completion_tokens := 0, total_tokens := 0 } }

/-- One iteration of the `async for` loop of
`WatsonXStreamedResponse.__aiter__`: a partial `function_call` is
accumulated and yields an event with empty content; a truthy (non-empty)
partial `content` is accumulated and yields a content event.  Returns the
updated state and the events yielded for this chunk, in order. -/
def processChunk (st : StreamState) (c : Chunk) : StreamState × List StreamEvent :=
  let p1 : StreamState × List StreamEvent :=
    match c.delta.function_call with
    | some fc =>
      ({ st with function_calls := st.function_calls ++ [fc] },
       [{ content := "", role := "assistant", function_call := some fc }])
    | none => (st, ([] : List StreamEvent))
  let st1 := p1.1
  let evs1 := p1.2
  let content := c.delta.content.getD ""
  if content = "" then (st1, evs1)
  else
    ({ st1 with collected_content := st1.collected_content ++ [content] },
     evs1 ++ [{ content := content, role := "assistant", function_call := none }])

/-- Full consumption of the upstream chunk sequence by `__aiter__`:
folds `processChunk` over the chunks, collecting every yielded event. -/
def consumeStream (st : StreamState) : List Chunk → StreamState × List StreamEvent
  | [] => (st, [])
  | c :: cs =>
    let (st1, evs) := processChunk st c
    let (st2, evs2) := consumeStream st1 cs
    (st2, evs ++ evs2)

/-- `WatsonXStreamedResponse.get`: joins the collected content; when any
function-call fragments were seen, returns the last one as a tool-call
response, otherwise a plain text response. -/
def streamGet (st : StreamState) : ModelResponse :=
  let content := String.join st.collected_content
  match st.function_calls.getLast? with
  | some fc =>
    { content := content, role := "assistant",
      function_call := some fc, finish_reason := some .function_call }
  | none =>
    { content := content, role := "assistant",
      function_call := none, finish_reason := some .stop }

/-- `WatsonXStreamedResponse.usage`: returns the `_usage` field. -/
def streamUsage (st : StreamState) : Usage :=
  st.usage

/-! ## Part 2: the conversational state machine (`src/src/pdf_agent/chat.py`) -/

/-- A tool-invocation request carried by an assistant message
(langchain `tool_calls` entry). -/
structure ToolCall where
  name : String
  args : List (String × String)
  id : String
  deriving Repr, DecidableEq

/-- The assistant message returned by `llm_with_tools.invoke`. -/
structure AIMessage where
  content : String
  tool_calls : List ToolCall
  deriving Repr, DecidableEq

/-- A message of the conversation transcript: user text, an assistant
message, or a `ToolMessage(content, tool_call_id=...)`. -/
inductive ChatMsg
  | user (content : String)
  | ai (message : AIMessage)
  | toolMsg (content : String) (tool_call_id : String)
  deriving Repr, DecidableEq

/-- Whether a transcript message is a `ToolMessage`. -/
def ChatMsg.isToolMessage : ChatMsg → Bool
  | .toolMsg _ _ => true
  | _ => false

/-- Whether the last message of the transcript is a tool-invocation
request (an assistant message with a non-empty `tool_calls` list). -/
def lastMessageHasToolCalls (messages : List ChatMsg) : Bool :=
  match messages.getLast? with
  | some (ChatMsg.ai m) => !m.tool_calls.isEmpty
  | _ => false

/-- The nodes of the compiled graph: `START`, the `chatbot` node, the
`tools` node, and the implicit `END`. -/
inductive Node
  | start
  | chatbot
  | tools
  | terminal
  deriving Repr, DecidableEq

/-- Modelled from the spec: `tools_condition` is langgraph's prebuilt
router, imported by `chat.py` but not part of this repository's sources.
Per the spec's routing rule it sends control to the tools node exactly
when the last produced message is a tool-invocation request, and to `END`
otherwise. -/
def tools_condition (messages : List ChatMsg) : Node :=
  if lastMessageHasToolCalls messages then Node.tools else Node.terminal

/-- The step relation of the compiled graph, as wired by `graph_builder`:
`add_edge(START, "chatbot")`, `add_conditional_edges("chatbot",
tools_condition)`, `add_edge("tools", "chatbot")`; `END` is absorbing. -/
def graphStep (n : Node) (messages : List ChatMsg) : Node :=
  match n with
  | .start => .chatbot
  | .chatbot => tools_condition messages
  | .tools => .chatbot
  | .terminal => .terminal

/-- The `chatbot` node: invokes the bound model on the current messages,
asserts `len(message.tool_calls) <= 1`, and returns the update
`\x7b"messages": [message]\x7d`; a failed assertion raises
`AssertionError`.  The bound model is passed in as a function. -/
def chatbot (llm : List ChatMsg → AIMessage) (messages : List ChatMsg) :
    Except String (List ChatMsg) :=
  let message := llm messages
  if message.tool_calls.length ≤ 1 then .ok [ChatMsg.ai message]
  else .error "AssertionError"

/-- The review payload built by `human_assistance` and handed to
`interrupt`: `\x7b"question": "Is this correct?", "name": name,
"birthday": birthday\x7d`. -/
structure ReviewPayload where
  question : String
  name : String
  birthday : String
  deriving Repr, DecidableEq

/-- The resume payload supplied by the human reviewer; the tool reads the
optional keys `correct`, `name` and `birthday` via `.get`. -/
structure ResumePayload where
  correct : Option String
  name : Option String
  birthday : Option String
  deriving Repr, DecidableEq

/-- A Python single-quoted string literal. -/
def pyQuote (s : String) : String :=
  "\x27" ++ s ++ "\x27"

/-- The Python `str()` rendering of the resume-payload dictionary, as
interpolated by `f"Made a correction: \x7bhuman_response\x7d"`; keys are
rendered in the fixed order `correct`, `name`, `birthday`, present keys
only. -/
def ResumePayload.pyRepr (p : ResumePayload) : String :=
  let fields :=
    (match p.correct with
     | some v => [pyQuote "correct" ++ ": " ++ pyQuote v]
     | none => []) ++
    (match p.name with
     | some v => [pyQuote "name" ++ ": " ++ pyQuote v]
     | none => []) ++
    (match p.birthday with
     | some v => [pyQuote "birthday" ++ ": " ++ pyQuote v]
     | none => [])
  "\x7b" ++ String.intercalate ", " fields ++ "\x7d"

/-- Python's `str.lower`, embedded as character-wise case folding over
the string's character list (ASCII folding, which is exact on the answers
this program compares). -/
def pyLower (s : String) : String :=
  ⟨s.data.map Char.toLower⟩

/-- Python's `str.startswith`, embedded as a prefix test on the
character lists. -/
def pyStartsWith (s p : String) : Bool :=
  p.data.isPrefixOf s.data

/-- The state update returned by `human_assistance` through
`Command(update=state_update)`. -/
structure StateUpdate where
  name : String
  birthday : String
  messages : List ChatMsg
  deriving Repr, DecidableEq

/-- The part of `human_assistance` that runs after `interrupt` returns:
`human_response.get("correct", "").lower().startswith("y")` selects the
confirmation path (state kept as-is, response `"Correct"`); otherwise the
correction path takes `name`/`birthday` from the payload with the original
arguments as fallbacks and responds
`f"Made a correction: \x7bhuman_response\x7d"`.  Either way the update
carries exactly one `ToolMessage(response, tool_call_id=tool_call_id)`. -/
def humanAssistanceResume (name birthday tool_call_id : String)
    (human_response : ResumePayload) : StateUpdate :=
  if pyStartsWith (pyLower (human_response.correct.getD "")) "y" then
    { name := name, birthday := birthday,
      messages := [ChatMsg.toolMsg "Correct" tool_call_id] }
  else
    let verified_name := human_response.name.getD name
    let verified_birthday := human_response.birthday.getD birthday
    { name := verified_name, birthday := verified_birthday,
      messages := [ChatMsg.toolMsg ("Made a correction: " ++ human_response.pyRepr)
                     tool_call_id] }

/-- The outcome of running a tool body: either the turn is suspended at
an `interrupt` call, carrying the review payload and the continuation
that the resume payload will be fed to, or the tool ran to completion. -/
inductive ToolRun
  | suspended (review : ReviewPayload) (resumeWith : ResumePayload → StateUpdate)
  | completed (update : StateUpdate)

/-- Whether a tool run stopped at an `interrupt`. -/
def ToolRun.isSuspended : ToolRun → Bool
  | .suspended _ _ => true
  | .completed _ => false

/-- Modelled from the spec: resumption re-enters the suspended tool call
exactly at the suspension point with the resume payload as the
`interrupt` call's return value (langgraph's `Command(resume=...)`
machinery is not part of this repository's sources). -/
def ToolRun.resume : ToolRun → ResumePayload → Option StateUpdate
  | .suspended _ k, p => some (k p)
  | .completed _, _ => none

/-- The `human_assistance` tool: builds the review payload, then calls
`interrupt`, which suspends the turn before any tool result is returned;
the rest of the body becomes the resume continuation. -/
def human_assistance (name birthday tool_call_id : String) : ToolRun :=
  .suspended { question := "Is this correct?", name := name, birthday := birthday }
    (humanAssistanceResume name birthday tool_call_id)

/-- The graph's conversation state (`State`): the transcript plus the
`name` and `birthday` fields. -/
structure ChatState where
  messages : List ChatMsg
  name : String
  birthday : String
  deriving Repr, DecidableEq

/-- Modelled from the spec: the external checkpoint store (the
`MemorySaver` checkpointer handed to `compile`, not part of this
repository's sources), keyed by a caller-supplied thread identifier. -/
def Checkpoints : Type :=
  String → Option ChatState

/-- Modelled from the spec: suspension durably checkpoints the full
conversation state under the caller-supplied thread identifier. -/
def suspendTurn (cps : Checkpoints) (thread_id : String) (st : ChatState) :
    Checkpoints :=
  fun t => if t = thread_id then some st else cps t

/-! ## Helper lemmas -/

/-- The `role_mapping.get(msg.role, msg.role)` lookup acts as the
identity except on `"tool"`, which it sends to `"function"`. -/
theorem role_mapping_eq (r : String) :
    role_mapping r = if r = "tool" then "function" else r := by
  unfold role_mapping
  split_ifs with h1 h2 h3 h4 <;> simp_all

/-! ## Theorems for the claims -/

/-- C1 counterexample: a transcript consisting of one message with role
`"tool"` is converted to a wire sequence whose single record has role
`"function"`, not `"assistant"` as the claim states. -/
theorem tool_role_not_assistant_cex :
    (convertMessages [{ role := "tool", content := "result", name := none }]).map
        WireMsg.role = ["function"] ∧
      ("function" : String) ≠ "assistant" := by
  constructor
  · rfl
  · decide

/-- C1 (amended): `_convert_messages` maps each message's role by the
rule system→system, user→user, assistant→assistant and tool→function
(any other role passes through unchanged); in particular every `"tool"`
message appears on the wire with role `"function"`. -/
theorem convert_messages_role_rule (ms : List Msg) :
    (convertMessages ms).map WireMsg.role
      = ms.map (fun m => if m.role = "tool" then "function" else m.role) := by
  unfold convertMessages
  rw [List.map_map]
  apply List.map_congr_left
  intro m _
  simp [convertMessage, role_mapping_eq]

/-- C7: `_extract_usage` is a total function (it never raises); a
response with no `usage` object yields the zero counters, and each token
field individually defaults to `0` when absent from the usage object. -/
theorem extract_usage_defaults :
    (∀ r : WireResponse, r.usage = none →
        extractUsage r = { prompt_tokens := 0, completion_tokens := 0, total_tokens := 0 }) ∧
      (∀ (r : WireResponse) (u : UsageData), r.usage = some u →
        (u.prompt_tok = none → (extractUsage r).prompt_tokens = 0) ∧
          (u.completion_tok = none → (extractUsage r).completion_tokens = 0) ∧
          (u.total_tok = none → (extractUsage r).total_tokens = 0)) := by
  constructor
  · intro r h
    simp [extractUsage, h]
  · intro r u h
    refine ⟨?_, ?_, ?_⟩ <;> intro h2 <;> simp [extractUsage, h, h2]

/-- C7 witness: the defaults evaluated on a concrete response with no
usage object and on one whose usage object has no fields. -/
theorem extract_usage_defaults_witness :
    extractUsage (WireResponse.mk none none none)
        = { prompt_tokens := 0, completion_tokens := 0, total_tokens := 0 } ∧
      (extractUsage
          (WireResponse.mk none none
            (some (UsageData.mk none (some 5) (some 5))))).prompt_tokens = 0 :=
  ⟨extract_usage_defaults.1 _ rfl,
    (extract_usage_defaults.2 _ _ rfl).1 rfl⟩

/-- C8: `_convert_messages` preserves the transcript's length and order:
the wire sequence has the same length and its i-th record is the
conversion of the i-th message. -/
theorem convert_messages_length_order (ms : List Msg) :
    (convertMessages ms).length = ms.length ∧
      ∀ (i : Nat) (h : i < ms.length) (h2 : i < (convertMessages ms).length),
        (convertMessages ms).get ⟨i, h2⟩ = convertMessage (ms.get ⟨i, h⟩) := by
  constructor
  · simp [convertMessages]
  · intro i h h2
    simp [convertMessages]

/-- C8 witness: length and order preservation evaluated on a concrete
two-message transcript. -/
theorem convert_messages_length_order_witness :
    (convertMessages [{ role := "user", content := "hi", name := none },
        { role := "tool", content := "r", name := none }]).length = 2 ∧
      (convertMessages [{ role := "user", content := "hi", name := none },
          { role := "tool", content := "r", name := none }]).get ⟨1, by decide⟩
        = convertMessage (([{ role := "user", content := "hi", name := none },
            { role := "tool", content := "r", name := none }] : List Msg).get ⟨1, by decide⟩) :=
  ⟨(convert_messages_length_order _).1,
    (convert_messages_length_order _).2 1 (by decide) (by decide)⟩

/-- C9: the `chatbot` node asserts at most one tool call in the model's
reply: a reply with zero or one tool calls passes the assertion and the
node returns exactly that one message as the update; a reply with two or
more tool calls raises `AssertionError`. -/
theorem chatbot_at_most_one_tool_call (llm : List ChatMsg → AIMessage)
    (messages : List ChatMsg) :
    ((llm messages).tool_calls.length ≤ 1 →
        chatbot llm messages = .ok [ChatMsg.ai (llm messages)]) ∧
      (2 ≤ (llm messages).tool_calls.length →
        chatbot llm messages = .error "AssertionError") := by
  constructor
  · intro h
    simp [chatbot, h]
  · intro h
    have h2 : ¬ (llm messages).tool_calls.length ≤ 1 := by omega
    simp [chatbot, h2]

/-- C9 witness: the assertion evaluated for a model that replies with no
tool calls and for one that replies with two. -/
theorem chatbot_at_most_one_tool_call_witness :
    chatbot (fun _ => { content := "hi", tool_calls := [] }) []
        = .ok [ChatMsg.ai { content := "hi", tool_calls := [] }] ∧
      chatbot (fun _ =>
          { content := "",
            tool_calls := [{ name := "a", args := [], id := "1" },
              { name := "b", args := [], id := "2" }] }) []
        = .error "AssertionError" :=
  ⟨(chatbot_at_most_one_tool_call _ _).1 (by decide),
    (chatbot_at_most_one_tool_call _ _).2 (by decide)⟩

/-- C2 counterexample: on a two-message transcript (the chat branch) a
wire response with no `choices` key makes `request` return the wrapped
`RuntimeError` rather than a normal result with empty content. -/
theorem missing_choices_fatal_cex :
    processChatResponse (WireResponse.mk none none none)
        = .error "KeyError: choices" ∧
      request true
          [{ role := "user", content := "a", name := none },
            { role := "user", content := "b", name := none }]
          (fun _ => WireResponse.mk none none none)
          (fun _ => WireResponse.mk none none none)
        = .error (.runtimeError "WatsonX request failed: KeyError: choices") :=
  ⟨rfl, rfl⟩

/-- C2 (amended): a wire response in which the `choices` field is missing
is a fatal error: the `KeyError` raised by `_process_chat_response`
propagates to `request`'s `except` clause, which re-raises it as a
`RuntimeError` to the caller, for every transcript that takes the chat
branch. -/
theorem missing_choices_fatal (ms : List Msg) (atr : Bool)
    (chatE : List WireMsg → WireResponse) (genE : String → WireResponse)
    (hbranch : (convertMessages ms).length > 1 ∨ atr = false)
    (hchoices : (chatE (convertMessages ms)).choices = none) :
    request atr ms chatE genE
      = .error (.runtimeError "WatsonX request failed: KeyError: choices") := by
  have h1 : processChatResponse (chatE (convertMessages ms))
      = .error "KeyError: choices" := by
    unfold processChatResponse
    rw [hchoices]
  unfold request
  rw [if_pos hbranch]
  simp [h1]

/-- C2 witness: the amended claim applied to a concrete two-message
transcript against an endpoint answering without `choices`. -/
theorem missing_choices_fatal_witness :
    request false
        [{ role := "user", content := "q", name := none }]
        (fun _ => WireResponse.mk none none none)
        (fun _ => WireResponse.mk none none none)
      = .error (.runtimeError "WatsonX request failed: KeyError: choices") :=
  missing_choices_fatal _ _ _ _ (Or.inr rfl) rfl

/-- C3: the compiled graph's step relation: `START` goes to the chatbot
node; after the chatbot node, control passes to the tools node exactly
when the last produced message is a tool-invocation request and otherwise
the turn ends; after the tools node control always returns to the
chatbot node. -/
theorem graph_transitions (messages : List ChatMsg) :
    graphStep .start messages = .chatbot ∧
      graphStep .tools messages = .chatbot ∧
      (graphStep .chatbot messages = .tools ↔
        lastMessageHasToolCalls messages = true) ∧
      (lastMessageHasToolCalls messages = false →
        graphStep .chatbot messages = .terminal) := by
  refine ⟨rfl, rfl, ?_, ?_⟩
  · unfold graphStep tools_condition
    cases h : lastMessageHasToolCalls messages <;> simp [h]
  · intro h
    unfold graphStep tools_condition
    simp [h]

/-- C3 witness: the transitions evaluated on a transcript whose last
message requests a tool call and on one whose last message does not. -/
theorem graph_transitions_witness :
    graphStep .chatbot
        [ChatMsg.ai
          (AIMessage.mk "" [ToolCall.mk "lookup" [("q", "X")] "1"])]
      = .tools ∧
      graphStep .chatbot [ChatMsg.ai (AIMessage.mk "done" [])]
        = .terminal :=
  ⟨(graph_transitions _).2.2.1.mpr (by decide),
    (graph_transitions _).2.2.2 (by decide)⟩

/-- C4: `human_assistance` suspends at the `interrupt` call before any
tool result is returned; the suspension checkpoint saved under the thread
identifier is retrievable under that identifier; resuming with the
payload `correct = "yes"` feeds that payload to the suspension point's
continuation and yields an update carrying exactly one message, the
`ToolMessage` with content exactly `"Correct"`; and from the tools node
control returns to the chatbot node. -/
theorem human_assistance_suspend_resume (name birthday tool_call_id : String)
    (cps : Checkpoints) (thread_id : String) (st : ChatState) :
    (human_assistance name birthday tool_call_id).isSuspended = true ∧
      suspendTurn cps thread_id st thread_id = some st ∧
      (human_assistance name birthday tool_call_id).resume
          (ResumePayload.mk (some "yes") none none)
        = some (StateUpdate.mk name birthday
            [ChatMsg.toolMsg "Correct" tool_call_id]) ∧
      (ChatMsg.toolMsg "Correct" tool_call_id).isToolMessage = true ∧
      ∀ messages, graphStep .tools messages = .chatbot := by
  refine ⟨rfl, ?_, ?_, rfl, fun _ => rfl⟩
  · unfold suspendTurn
    simp
  · simp only [human_assistance, ToolRun.resume, humanAssistanceResume]
    rw [if_pos (by decide : pyStartsWith (pyLower (Option.getD (some "yes") "")) "y" = true)]

/-- A chunk processing step never touches the usage counters. -/
theorem processChunk_usage (st : StreamState) (c : Chunk) :
    (processChunk st c).1.usage = st.usage := by
  unfold processChunk
  rcases hfc : c.delta.function_call with _ | fc <;>
    by_cases hco : c.delta.content.getD "" = "" <;>
      simp [hfc, hco]

/-- Consuming a whole stream never touches the usage counters. -/
theorem consumeStream_usage (chunks : List Chunk) :
    ∀ st : StreamState, (consumeStream st chunks).1.usage = st.usage := by
  induction chunks with
  | nil => intro st; rfl
  | cons c cs ih =>
    intro st
    show (consumeStream (processChunk st c).1 cs).1.usage = st.usage
    rw [ih, processChunk_usage]

/-- C5: per consumed chunk the stream emits at most one non-empty
content event — none when the chunk's content is empty — and appends any
partial tool-call descriptor to the accumulator; the synthetic
three-chunk stream `"Hel"`, `"lo"`, `""` yields exactly two non-empty
events and `get` reconstructs the aggregate message `"Hello"`; and
whenever tool-call fragments were observed, `get` returns the last-seen
descriptor. -/
theorem stream_events_and_get :
    (∀ (st : StreamState) (c : Chunk),
        (processChunk st c).2.countP (fun e => e.content != "") ≤ 1 ∧
          (c.delta.content.getD "" = "" →
            (processChunk st c).2.countP (fun e => e.content != "") = 0) ∧
          ∀ fc, c.delta.function_call = some fc →
            (processChunk st c).1.function_calls = st.function_calls ++ [fc]) ∧
      ((consumeStream initStreamState
            [Chunk.mk (Delta.mk (some "Hel") none) none,
              Chunk.mk (Delta.mk (some "lo") none) none,
              Chunk.mk (Delta.mk (some "") none) none]).2.countP
          (fun e => e.content != "") = 2 ∧
        streamGet (consumeStream initStreamState
            [Chunk.mk (Delta.mk (some "Hel") none) none,
              Chunk.mk (Delta.mk (some "lo") none) none,
              Chunk.mk (Delta.mk (some "") none) none]).1
          = ModelResponse.mk "Hello" "assistant" none (some .stop)) ∧
      ∀ st : StreamState, st.function_calls ≠ [] →
        (streamGet st).function_call = st.function_calls.getLast? := by
  refine ⟨?_, ⟨by decide, by decide⟩, ?_⟩
  · intro st c
    unfold processChunk
    rcases hfc : c.delta.function_call with _ | fc <;>
      by_cases hco : c.delta.content.getD "" = "" <;>
        simp [hfc, hco, List.countP_cons, List.countP_nil]
  · intro st h
    simp only [streamGet]
    cases hl : st.function_calls.getLast? with
    | none => exact absurd (List.getLast?_eq_none_iff.mp hl) h
    | some fc => rfl

/-- C5 witness: a chunk with empty content produces no non-empty event,
by the per-chunk bound applied at a concrete chunk. -/
theorem stream_events_and_get_witness :
    (processChunk initStreamState
        (Chunk.mk (Delta.mk (some "") none) none)).2.countP
      (fun e => e.content != "") = 0 :=
  ((stream_events_and_get.1 initStreamState
      (Chunk.mk (Delta.mk (some "") none) none)).2.1 rfl)

/-- C6: the streamed response's usage accessor always returns the zero
counters — `__init__` initializes `_usage` to zero and no code path ever
accumulates into it — so a stream whose chunk reports the token counts
(1, 2, 3) still ends with counters (0, 0, 0), contradicting the claimed
accumulation. -/
theorem stream_usage_never_accumulates :
    (∀ chunks : List Chunk,
        streamUsage (consumeStream initStreamState chunks).1
          = { prompt_tokens := 0, completion_tokens := 0, total_tokens := 0 }) ∧
      streamUsage (consumeStream initStreamState
          [Chunk.mk (Delta.mk (some "Hi") none)
            (some (UsageData.mk (some 1) (some 2) (some 3)))]).1
        ≠ { prompt_tokens := 1, completion_tokens := 2, total_tokens := 3 } := by
  constructor
  · intro chunks
    show (consumeStream initStreamState chunks).1.usage = _
    rw [consumeStream_usage]
    rfl
  · decide

/-- Case folding sends a character to `y` exactly when it is `y` or
`Y`. -/
theorem toLower_eq_y_iff (c : Char) :
    Char.toLower c = Char.ofNat 121 ↔ (c = Char.ofNat 121 ∨ c = Char.ofNat 89) := by
  have hof : ∀ m : Nat, m < 55296 → (Char.ofNat m).toNat = m := by
    intro m hm
    rw [Char.ofNat, dif_pos (Or.inl hm)]
    rfl
  have hcn : ∀ m : Nat, m < 55296 → (c = Char.ofNat m ↔ c.toNat = m) := by
    intro m hm
    constructor
    · intro he
      rw [he, hof m hm]
    · intro he
      have h2 := Char.ofNat_toNat c
      rw [he] at h2
      exact h2.symm
  simp only [Char.toLower]
  by_cases h : c.toNat ≥ 65 ∧ c.toNat ≤ 90
  · rw [if_pos h]
    have hy : Char.ofNat (c.toNat + 32) = Char.ofNat 121 ↔ c.toNat + 32 = 121 := by
      constructor
      · intro he
        have h2 := congrArg Char.toNat he
        rw [hof _ (by omega), hof 121 (by omega)] at h2
        exact h2
      · intro he
        rw [he]
    rw [hy, hcn 121 (by omega), hcn 89 (by omega)]
    omega
  · rw [if_neg h]
    rw [hcn 121 (by omega), hcn 89 (by omega)]
    omega

/-- Prefix test against `"y"` after character-wise case folding equals
the disjunction of the prefix tests against `"y"` and `"Y"`. -/
theorem isPrefixOf_y_toLower (l : List Char) :
    List.isPrefixOf [Char.ofNat 121] (l.map Char.toLower)
      = (List.isPrefixOf [Char.ofNat 121] l || List.isPrefixOf [Char.ofNat 89] l) := by
  cases l with
  | nil => rfl
  | cons c cs =>
    simp only [List.map_cons, List.isPrefixOf_cons₂, List.isPrefixOf_nil_left,
      Bool.and_true]
    rw [Bool.eq_iff_iff]
    simp only [beq_iff_eq, Bool.or_eq_true]
    constructor
    · intro he
      rcases (toLower_eq_y_iff c).mp he.symm with h | h
      · exact Or.inl h.symm
      · exact Or.inr h.symm
    · rintro (he | he)
      · exact ((toLower_eq_y_iff c).mpr (Or.inl he.symm)).symm
      · exact ((toLower_eq_y_iff c).mpr (Or.inr he.symm)).symm

/-- Python's case-insensitive check `s.lower().startswith("y")` holds
exactly when `s` starts with `"y"` or with `"Y"`. -/
theorem pyLower_startsWith_y (s : String) :
    pyStartsWith (pyLower s) "y" = (pyStartsWith s "y" || pyStartsWith s "Y") := by
  have h1 : "y".data = [Char.ofNat 121] := by decide
  have h2 : "Y".data = [Char.ofNat 89] := by decide
  show List.isPrefixOf "y".data (s.data.map Char.toLower)
      = (List.isPrefixOf "y".data s.data || List.isPrefixOf "Y".data s.data)
  rw [h1, h2]
  exact isPrefixOf_y_toLower s.data

/-- C10: when the resume payload's `correct` value does not start with
`y` or `Y` — in particular when it is absent — `human_assistance` takes
the correction path: the state's `name` and `birthday` are taken from the
payload with the original tool arguments as fallbacks, and the update
carries exactly one `ToolMessage` whose content is
`"Made a correction: "` followed by the payload's rendering. -/
theorem human_assistance_correction (name birthday tool_call_id : String)
    (p : ResumePayload)
    (hcorrect : ∀ s, p.correct = some s →
      pyStartsWith s "y" = false ∧ pyStartsWith s "Y" = false) :
    humanAssistanceResume name birthday tool_call_id p
      = StateUpdate.mk (p.name.getD name) (p.birthday.getD birthday)
          [ChatMsg.toolMsg ("Made a correction: " ++ p.pyRepr) tool_call_id] := by
  have hfalse : pyStartsWith (pyLower (p.correct.getD "")) "y" = false := by
    cases hc : p.correct with
    | none => decide
    | some s =>
      obtain ⟨hy, hY⟩ := hcorrect s hc
      rw [Option.getD_some, pyLower_startsWith_y, hy, hY]
      rfl
  unfold humanAssistanceResume
  rw [hfalse]
  simp

/-- C10 witness: the correction path evaluated on a concrete payload
answering `"no"` with a corrected name. -/
theorem human_assistance_correction_witness :
    humanAssistanceResume "Bot" "Jan 1" "call1"
        (ResumePayload.mk (some "no") (some "LangGraph") none)
      = StateUpdate.mk "LangGraph" "Jan 1"
          [ChatMsg.toolMsg
            "Made a correction: \x7b\x27correct\x27: \x27no\x27, \x27name\x27: \x27LangGraph\x27\x7d"
            "call1"] := by
  have h := human_assistance_correction "Bot" "Jan 1" "call1"
    (ResumePayload.mk (some "no") (some "LangGraph") none)
    (by
      intro s hs
      cases hs
      exact ⟨by decide, by decide⟩)
  rw [h]
  decide

end PdfAnalyst
